import Mathlib

/-!
Shallow embedding of `src/token_manager.py` (class `TokenManager`).

Modelling conventions:
* The sqlite table `tokens` is a `List TokenRecord` (the rows, in rowid
  order); `SELECT ... LIMIT 1` reads the head, `DELETE FROM tokens`
  clears the list, `INSERT` appends.
* Environment variables (`os.getenv`) are an explicit `Config` of
  `Option String`; Python's `None` formats as the string "None" inside
  f-strings, mirrored by `pyStr`.
* `time.time()` is modelled as one integer-valued wall-clock reading
  `now`, held constant for the duration of a single call (the code reads
  the clock at the expiry check and again inside `save_tokens`; the model
  treats both reads as the same instant, and drops sub-second fractions,
  matching `int(time.time())`).
* The HTTPS transport (`requests.post`) is an oracle
  `http : OAuthRequest → HttpResponse`; the request the code builds
  (URL, headers including the Basic-auth value, form fields) is
  reconstructed faithfully, Base64 included.
* `raise Exception(msg)` becomes `Except.error (PyError.exception msg)`.
* Each operation additionally returns the list of OAuth requests it
  performed, so call counts are statable.
-/

namespace TokenManager

/-- One row of the `tokens` table / the dict returned by `get_tokens`:
fields `access_token`, `refresh_token`, `expires_at` (epoch seconds,
INTEGER column). -/
structure TokenRecord where
  access_token : String
  refresh_token : String
  expires_at : Int
deriving DecidableEq

/-- The environment variables the code reads: `BLUEBEAM_CLIENT_ID`,
`BLUEBEAM_CLIENT_SECRET` (stored on `self` in `__init__`) and
`BLUEBEAM_REFRESH_TOKEN` (read inside `get_valid_access_token`).
`none` models an unset variable (`os.getenv` returning `None`). -/
structure Config where
  client_id : Option String
  client_secret : Option String
  bluebeam_refresh_token : Option String
deriving DecidableEq

/-- The JSON body of a successful token response:
`{access_token, refresh_token, expires_in}`. -/
structure TokenResponse where
  access_token : String
  refresh_token : String
  expires_in : Int
deriving DecidableEq

/-- An HTTP response as the code observes it: `status_code`, raw body
`text`, and the parsed JSON fields (consulted only on status 200). -/
structure HttpResponse where
  status_code : Nat
  text : String
  json : TokenResponse
deriving DecidableEq

/-- The POST request `refresh_access_token` sends (URL, the two headers,
and the two form-encoded body fields). -/
structure OAuthRequest where
  url : String
  content_type : String
  authorization : String
  grant_type : String
  refresh_token : String
deriving DecidableEq

/-- A raised Python exception; the code only ever raises plain
`Exception(msg)`. -/
inductive PyError where
  | exception : String → PyError
deriving DecidableEq

/-- Python str() of an `os.getenv` result inside an f-string:
`None` renders as "None". -/
def pyStr : Option String → String
  | none => "None"
  | some s => s

/-- UTF-8 encoding of a Unicode code point (Python `str.encode()`),
as its list of byte values. -/
def utf8EncodeNat (n : Nat) : List Nat :=
  if n < 128 then [n]
  else if n < 2048 then [192 + n / 64, 128 + n % 64]
  else if n < 65536 then [224 + n / 4096, 128 + n / 64 % 64, 128 + n % 64]
  else [240 + n / 262144, 128 + n / 4096 % 64, 128 + n / 64 % 64, 128 + n % 64]

/-- UTF-8 bytes of a string. -/
def utf8Bytes (s : String) : List Nat :=
  (s.data.map (fun c => utf8EncodeNat c.toNat)).flatten

/-- The standard Base64 alphabet. -/
def b64Alphabet : List Char :=
  "ABCDEFGHIJKLMNOPQRSTUVWXYZabcdefghijklmnopqrstuvwxyz0123456789+/".data

/-- Character for a 6-bit group. -/
def b64Char (n : Nat) : Char := b64Alphabet.getD n 'A'

/-- Base64 of a byte list with standard `=` padding
(Python `base64.b64encode`). -/
def b64encodeBytes : List Nat → String
  | [] => ""
  | [a] => String.mk [b64Char (a / 4), b64Char (a % 4 * 16), '=', '=']
  | [a, b] =>
      String.mk [b64Char (a / 4), b64Char (a % 4 * 16 + b / 16),
                 b64Char (b % 16 * 4), '=']
  | a :: b :: c :: rest =>
      String.mk [b64Char (a / 4), b64Char (a % 4 * 16 + b / 16),
                 b64Char (b % 16 * 4 + c / 64), b64Char (c % 64)]
        ++ b64encodeBytes rest

/-- `b64encode(s.encode()).decode()` from the source. -/
def b64encode (s : String) : String := b64encodeBytes (utf8Bytes s)

/-- `_init_db`: `CREATE TABLE IF NOT EXISTS tokens (...)`. The storage is
`none` when the table does not yet exist, `some rows` when it does;
creation yields an empty table, an existing table is left untouched. -/
def init_db : Option (List TokenRecord) → Option (List TokenRecord)
  | none => some []
  | some rows => some rows

/-- `save_tokens(access_token, refresh_token, expires_in)`:
computes `expires_at = int(time.time()) + expires_in`, deletes every
existing row, then inserts the single new row. -/
def save_tokens (db : List TokenRecord) (access_token refresh_token : String)
    (expires_in now : Int) : List TokenRecord :=
  let expires_at := now + expires_in
  let db : List TokenRecord := []
  db ++ [{ access_token := access_token, refresh_token := refresh_token,
           expires_at := expires_at }]

/-- `get_tokens()`: `SELECT access_token, refresh_token, expires_at FROM
tokens LIMIT 1`, returning the row as a dict, or `None` when the table
is empty. -/
def get_tokens (db : List TokenRecord) : Option TokenRecord :=
  db.head?

/-- The request `refresh_access_token` builds: Basic-auth header from
`f"{client_id}:{client_secret}"`, form body with
`grant_type=refresh_token`. -/
def refreshRequest (cfg : Config) (refresh_token : String) : OAuthRequest :=
  let credentials := pyStr cfg.client_id ++ ":" ++ pyStr cfg.client_secret
  let encoded_credentials := b64encode credentials
  { url := "https://api.bluebeam.com/oauth2/token"
    content_type := "application/x-www-form-urlencoded"
    authorization := "Basic " ++ encoded_credentials
    grant_type := "refresh_token"
    refresh_token := refresh_token }

/-- Outcome of `refresh_access_token`: the returned JSON or the raised
exception, plus the requests performed. -/
structure RefreshResult where
  result : Except PyError TokenResponse
  requests : List OAuthRequest

/-- `refresh_access_token(refresh_token)`: one POST; on status 200 return
`response.json()`, otherwise raise
`Exception(f"Failed to refresh token: {response.text}")`. -/
def refresh_access_token (cfg : Config) (http : OAuthRequest → HttpResponse)
    (refresh_token : String) : RefreshResult :=
  let req := refreshRequest cfg refresh_token
  let response := http req
  if response.status_code = 200 then
    { result := .ok response.json, requests := [req] }
  else
    { result := .error (.exception ("Failed to refresh token: " ++ response.text))
      requests := [req] }

/-- Outcome of `get_valid_access_token`: the returned token or raised
exception, the final contents of the `tokens` table, and the OAuth
requests performed. -/
structure CallResult where
  result : Except PyError String
  db : List TokenRecord
  requests : List OAuthRequest

/-- `get_valid_access_token()`. Bootstrap path when `get_tokens()` is
`None` (Python `if not tokens`), guarded by `BLUEBEAM_REFRESH_TOKEN`
(`if not initial_refresh_token` — unset or empty both raise); cached
path when `expires_at > time.time() + 300`; refresh path otherwise. -/
def get_valid_access_token (cfg : Config) (http : OAuthRequest → HttpResponse)
    (now : Int) (db : List TokenRecord) : CallResult :=
  match get_tokens db with
  | none =>
    match cfg.bluebeam_refresh_token with
    | none =>
        { result := .error (.exception
            "No tokens in database and no BLUEBEAM_REFRESH_TOKEN in environment")
          db := db, requests := [] }
    | some initial_refresh_token =>
        if initial_refresh_token.isEmpty then
          { result := .error (.exception
              "No tokens in database and no BLUEBEAM_REFRESH_TOKEN in environment")
            db := db, requests := [] }
        else
          let r := refresh_access_token cfg http initial_refresh_token
          match r.result with
          | .ok new_tokens =>
              { result := .ok new_tokens.access_token
                db := save_tokens db new_tokens.access_token
                        new_tokens.refresh_token new_tokens.expires_in now
                requests := r.requests }
          | .error e => { result := .error e, db := db, requests := r.requests }
  | some tokens =>
    if tokens.expires_at > now + 300 then
      { result := .ok tokens.access_token, db := db, requests := [] }
    else
      let r := refresh_access_token cfg http tokens.refresh_token
      match r.result with
      | .ok new_tokens =>
          { result := .ok new_tokens.access_token
            db := save_tokens db new_tokens.access_token
                    new_tokens.refresh_token new_tokens.expires_in now
            requests := r.requests }
      | .error e => { result := .error e, db := db, requests := r.requests }

end TokenManager

namespace TokenManager

/-- Branch lemma: fresh cached token (`expires_at > now + 300`). -/
theorem gvat_cached (cfg : Config) (http : OAuthRequest → HttpResponse)
    (now : Int) (db : List TokenRecord) (r : TokenRecord)
    (hr : get_tokens db = some r) (hfresh : r.expires_at > now + 300) :
    get_valid_access_token cfg http now db =
      { result := .ok r.access_token, db := db, requests := [] } := by
  unfold get_valid_access_token
  rw [hr]
  simp [hfresh]

/-- Branch lemma: expiring record, upstream answers 200. -/
theorem gvat_refresh_200 (cfg : Config) (http : OAuthRequest → HttpResponse)
    (now : Int) (db : List TokenRecord) (r : TokenRecord)
    (hr : get_tokens db = some r) (hexp : ¬ r.expires_at > now + 300)
    (h200 : (http (refreshRequest cfg r.refresh_token)).status_code = 200) :
    get_valid_access_token cfg http now db =
      { result := .ok (http (refreshRequest cfg r.refresh_token)).json.access_token
        db := [{ access_token := (http (refreshRequest cfg r.refresh_token)).json.access_token
                 refresh_token := (http (refreshRequest cfg r.refresh_token)).json.refresh_token
                 expires_at := now + (http (refreshRequest cfg r.refresh_token)).json.expires_in }]
        requests := [refreshRequest cfg r.refresh_token] } := by
  unfold get_valid_access_token
  rw [hr]
  simp [hexp, refresh_access_token, h200, save_tokens]

/-- Branch lemma: expiring record, upstream answers non-200. -/
theorem gvat_refresh_non200 (cfg : Config) (http : OAuthRequest → HttpResponse)
    (now : Int) (db : List TokenRecord) (r : TokenRecord)
    (hr : get_tokens db = some r) (hexp : ¬ r.expires_at > now + 300)
    (h200 : ¬ (http (refreshRequest cfg r.refresh_token)).status_code = 200) :
    get_valid_access_token cfg http now db =
      { result := .error (.exception
          ("Failed to refresh token: " ++ (http (refreshRequest cfg r.refresh_token)).text))
        db := db
        requests := [refreshRequest cfg r.refresh_token] } := by
  unfold get_valid_access_token
  rw [hr]
  simp [hexp, refresh_access_token, h200]

/-- Branch lemma: expiring record makes exactly the one refresh request,
whatever the upstream status. -/
theorem gvat_requests_refresh (cfg : Config) (http : OAuthRequest → HttpResponse)
    (now : Int) (db : List TokenRecord) (r : TokenRecord)
    (hr : get_tokens db = some r) (hexp : ¬ r.expires_at > now + 300) :
    (get_valid_access_token cfg http now db).requests
      = [refreshRequest cfg r.refresh_token] := by
  by_cases h200 : (http (refreshRequest cfg r.refresh_token)).status_code = 200
  · rw [gvat_refresh_200 cfg http now db r hr hexp h200]
  · rw [gvat_refresh_non200 cfg http now db r hr hexp h200]

/-- Branch lemma: empty store, bootstrap token present, upstream 200. -/
theorem gvat_bootstrap_200 (cfg : Config) (http : OAuthRequest → HttpResponse)
    (now : Int) (db : List TokenRecord) (rt : String)
    (hdb : get_tokens db = none) (hcfg : cfg.bluebeam_refresh_token = some rt)
    (hne : rt.isEmpty = false)
    (h200 : (http (refreshRequest cfg rt)).status_code = 200) :
    get_valid_access_token cfg http now db =
      { result := .ok (http (refreshRequest cfg rt)).json.access_token
        db := [{ access_token := (http (refreshRequest cfg rt)).json.access_token
                 refresh_token := (http (refreshRequest cfg rt)).json.refresh_token
                 expires_at := now + (http (refreshRequest cfg rt)).json.expires_in }]
        requests := [refreshRequest cfg rt] } := by
  unfold get_valid_access_token
  rw [hdb, hcfg]
  simp [hne, refresh_access_token, h200, save_tokens]

/-- Branch lemma: empty store, bootstrap token present, upstream non-200. -/
theorem gvat_bootstrap_non200 (cfg : Config) (http : OAuthRequest → HttpResponse)
    (now : Int) (db : List TokenRecord) (rt : String)
    (hdb : get_tokens db = none) (hcfg : cfg.bluebeam_refresh_token = some rt)
    (hne : rt.isEmpty = false)
    (h200 : ¬ (http (refreshRequest cfg rt)).status_code = 200) :
    get_valid_access_token cfg http now db =
      { result := .error (.exception
          ("Failed to refresh token: " ++ (http (refreshRequest cfg rt)).text))
        db := db
        requests := [refreshRequest cfg rt] } := by
  unfold get_valid_access_token
  rw [hdb, hcfg]
  simp [hne, refresh_access_token, h200]

/-- Branch lemma: empty store, no usable bootstrap token. -/
theorem gvat_no_bootstrap (cfg : Config) (http : OAuthRequest → HttpResponse)
    (now : Int) (db : List TokenRecord)
    (hdb : get_tokens db = none) (hcfg : cfg.bluebeam_refresh_token = none) :
    get_valid_access_token cfg http now db =
      { result := .error (.exception
          "No tokens in database and no BLUEBEAM_REFRESH_TOKEN in environment")
        db := db, requests := [] } := by
  unfold get_valid_access_token
  rw [hdb, hcfg]

end TokenManager

namespace TokenManager

/-- Branch lemma: empty store, bootstrap token set but empty
(Python `if not initial_refresh_token` also fires on ""). -/
theorem gvat_empty_bootstrap (cfg : Config) (http : OAuthRequest → HttpResponse)
    (now : Int) (db : List TokenRecord) (rt : String)
    (hdb : get_tokens db = none) (hcfg : cfg.bluebeam_refresh_token = some rt)
    (hne : rt.isEmpty = true) :
    get_valid_access_token cfg http now db =
      { result := .error (.exception
          "No tokens in database and no BLUEBEAM_REFRESH_TOKEN in environment")
        db := db, requests := [] } := by
  unfold get_valid_access_token
  rw [hdb, hcfg]
  simp [hne]

/-- Concrete configuration for witnesses: both client credentials and a
bootstrap refresh token present. -/
def cfgW : Config :=
  { client_id := some "cid", client_secret := some "sec"
    bluebeam_refresh_token := some "rt0" }

/-- Concrete upstream oracle answering 200 with a fixed token payload. -/
def httpOk : OAuthRequest → HttpResponse :=
  fun _ => { status_code := 200, text := ""
             json := { access_token := "at1", refresh_token := "rt1"
                       expires_in := 3600 } }

/-- Concrete upstream oracle answering 401. -/
def httpErr : OAuthRequest → HttpResponse :=
  fun _ => { status_code := 401, text := "invalid_grant"
             json := { access_token := "", refresh_token := "", expires_in := 0 } }

/-- A record far from expiry (relative to the witness clock 1000). -/
def recFresh : TokenRecord :=
  { access_token := "atC", refresh_token := "rtC", expires_at := 100000 }

/-- A record inside the 5-minute buffer (relative to the witness clock 1000). -/
def recStale : TokenRecord :=
  { access_token := "atS", refresh_token := "rtS", expires_at := 900 }

/-- C1: for a stored record with `expires_at > now + 300`,
`get_valid_access_token` returns that record's `access_token` unchanged,
performs no OAuth request, and leaves the store exactly as it was. -/
theorem cached_access_token_reused (cfg : Config)
    (http : OAuthRequest → HttpResponse) (now : Int) (db : List TokenRecord)
    (r : TokenRecord) (hr : get_tokens db = some r)
    (hfresh : r.expires_at > now + 300) :
    get_valid_access_token cfg http now db =
      { result := .ok r.access_token, db := db, requests := [] } :=
  gvat_cached cfg http now db r hr hfresh

/-- Witness for C1 at a concrete fresh record. -/
theorem cached_access_token_reused_witness :
    get_valid_access_token cfgW httpOk 1000 [recFresh] =
      { result := .ok "atC", db := [recFresh], requests := [] } :=
  cached_access_token_reused cfgW httpOk 1000 [recFresh] recFresh rfl (by decide)

/-- C2: for a stored record with `expires_at ≤ now + 300`, exactly one
refresh request is made, carrying that record's `refresh_token`; when the
upstream answers 200, the store is replaced by a single record holding the
rotated refresh token from the response and `expires_at = now + expires_in`,
and the new access token is returned. -/
theorem expiring_record_single_refresh (cfg : Config)
    (http : OAuthRequest → HttpResponse) (now : Int) (db : List TokenRecord)
    (r : TokenRecord) (hr : get_tokens db = some r)
    (hexp : r.expires_at ≤ now + 300) :
    (get_valid_access_token cfg http now db).requests
        = [refreshRequest cfg r.refresh_token] ∧
    ((http (refreshRequest cfg r.refresh_token)).status_code = 200 →
      get_valid_access_token cfg http now db =
        { result := .ok (http (refreshRequest cfg r.refresh_token)).json.access_token
          db := [{ access_token :=
                     (http (refreshRequest cfg r.refresh_token)).json.access_token
                   refresh_token :=
                     (http (refreshRequest cfg r.refresh_token)).json.refresh_token
                   expires_at :=
                     now + (http (refreshRequest cfg r.refresh_token)).json.expires_in }]
          requests := [refreshRequest cfg r.refresh_token] }) := by
  have hexp' : ¬ r.expires_at > now + 300 := not_lt.mpr hexp
  exact ⟨gvat_requests_refresh cfg http now db r hr hexp',
    fun h200 => gvat_refresh_200 cfg http now db r hr hexp' h200⟩

/-- Witness for C2 at a concrete stale record and a 200 oracle. -/
theorem expiring_record_single_refresh_witness :
    (get_valid_access_token cfgW httpOk 1000 [recStale]).requests
        = [refreshRequest cfgW recStale.refresh_token] ∧
    get_valid_access_token cfgW httpOk 1000 [recStale] =
      { result := .ok "at1"
        db := [{ access_token := "at1", refresh_token := "rt1"
                 expires_at := 1000 + 3600 }]
        requests := [refreshRequest cfgW recStale.refresh_token] } :=
  ⟨(expiring_record_single_refresh cfgW httpOk 1000 [recStale] recStale rfl
      (by decide)).1,
   (expiring_record_single_refresh cfgW httpOk 1000 [recStale] recStale rfl
      (by decide)).2 rfl⟩

/-- C3: empty store with a configured bootstrap refresh token: exactly one
refresh request is made, carrying the bootstrap token; on a 200 answer the
response tokens are persisted as the single new record and the new access
token is returned. -/
theorem bootstrap_refresh_persists (cfg : Config)
    (http : OAuthRequest → HttpResponse) (now : Int) (db : List TokenRecord)
    (rt : String) (hdb : get_tokens db = none)
    (hcfg : cfg.bluebeam_refresh_token = some rt) (hne : rt.isEmpty = false) :
    (get_valid_access_token cfg http now db).requests = [refreshRequest cfg rt] ∧
    ((http (refreshRequest cfg rt)).status_code = 200 →
      get_valid_access_token cfg http now db =
        { result := .ok (http (refreshRequest cfg rt)).json.access_token
          db := [{ access_token := (http (refreshRequest cfg rt)).json.access_token
                   refresh_token := (http (refreshRequest cfg rt)).json.refresh_token
                   expires_at := now + (http (refreshRequest cfg rt)).json.expires_in }]
          requests := [refreshRequest cfg rt] }) := by
  constructor
  · by_cases h200 : (http (refreshRequest cfg rt)).status_code = 200
    · rw [gvat_bootstrap_200 cfg http now db rt hdb hcfg hne h200]
    · rw [gvat_bootstrap_non200 cfg http now db rt hdb hcfg hne h200]
  · exact fun h200 => gvat_bootstrap_200 cfg http now db rt hdb hcfg hne h200

/-- Witness for C3: the spec's example scenario (`rt0` bootstrap, response
`at1`/`rt1`/3600). -/
theorem bootstrap_refresh_persists_witness :
    (get_valid_access_token cfgW httpOk 5000 []).requests
        = [refreshRequest cfgW "rt0"] ∧
    get_valid_access_token cfgW httpOk 5000 [] =
      { result := .ok "at1"
        db := [{ access_token := "at1", refresh_token := "rt1"
                 expires_at := 5000 + 3600 }]
        requests := [refreshRequest cfgW "rt0"] } :=
  ⟨(bootstrap_refresh_persists cfgW httpOk 5000 [] "rt0" rfl rfl (by decide)).1,
   (bootstrap_refresh_persists cfgW httpOk 5000 [] "rt0" rfl rfl (by decide)).2 rfl⟩

/-- Configuration with client credentials but no bootstrap token. -/
def cfgNoBootstrap : Config :=
  { client_id := some "cid", client_secret := some "sec"
    bluebeam_refresh_token := none }

/-- Counterexample for C4: on the empty-store, no-bootstrap path the code
raises the message "No tokens in database and no BLUEBEAM_REFRESH_TOKEN in
environment", which is not the message the claim states. -/
theorem bootstrap_error_message_cex :
    (get_valid_access_token cfgNoBootstrap httpOk 0 []).result =
      .error (.exception
        "No tokens in database and no BLUEBEAM_REFRESH_TOKEN in environment") ∧
    "No tokens in database and no BLUEBEAM_REFRESH_TOKEN in environment" ≠
      "no cached credential and no bootstrap refresh token available" :=
  ⟨rfl, by decide⟩

/-- C4 (amended): empty store and no bootstrap refresh token configured:
the call fails with the exception message "No tokens in database and no
BLUEBEAM_REFRESH_TOKEN in environment", performs no OAuth request, and
leaves the store unchanged. -/
theorem bootstrap_missing_fails_no_call (cfg : Config)
    (http : OAuthRequest → HttpResponse) (now : Int) (db : List TokenRecord)
    (hdb : get_tokens db = none) (hcfg : cfg.bluebeam_refresh_token = none) :
    get_valid_access_token cfg http now db =
      { result := .error (.exception
          "No tokens in database and no BLUEBEAM_REFRESH_TOKEN in environment")
        db := db, requests := [] } :=
  gvat_no_bootstrap cfg http now db hdb hcfg

/-- Witness for amended C4 on an empty store. -/
theorem bootstrap_missing_fails_no_call_witness :
    get_valid_access_token cfgNoBootstrap httpOk 0 [] =
      { result := .error (.exception
          "No tokens in database and no BLUEBEAM_REFRESH_TOKEN in environment")
        db := [], requests := [] } :=
  bootstrap_missing_fails_no_call cfgNoBootstrap httpOk 0 [] rfl rfl

end TokenManager

namespace TokenManager

/-- C5: whenever the refresh exchange actually performed by a call answers
with a non-200 status, the call fails with the exception whose message is
"Failed to refresh token: " followed by the raw response body, and the
store is left exactly as it was (no write on the failure path). -/
theorem upstream_failure_store_unchanged (cfg : Config)
    (http : OAuthRequest → HttpResponse) (now : Int) (db : List TokenRecord)
    (req : OAuthRequest)
    (hreq : req ∈ (get_valid_access_token cfg http now db).requests)
    (hcode : (http req).status_code ≠ 200) :
    (get_valid_access_token cfg http now db).db = db ∧
    (get_valid_access_token cfg http now db).result =
      .error (.exception ("Failed to refresh token: " ++ (http req).text)) := by
  cases hget : get_tokens db with
  | none =>
    cases hcfg : cfg.bluebeam_refresh_token with
    | none =>
      rw [gvat_no_bootstrap cfg http now db hget hcfg] at hreq
      simp at hreq
    | some rt =>
      cases hne : rt.isEmpty with
      | true =>
        rw [gvat_empty_bootstrap cfg http now db rt hget hcfg hne] at hreq
        simp at hreq
      | false =>
        have hreqs : (get_valid_access_token cfg http now db).requests
            = [refreshRequest cfg rt] := by
          by_cases h200 : (http (refreshRequest cfg rt)).status_code = 200
          · rw [gvat_bootstrap_200 cfg http now db rt hget hcfg hne h200]
          · rw [gvat_bootstrap_non200 cfg http now db rt hget hcfg hne h200]
        rw [hreqs] at hreq
        have hre : req = refreshRequest cfg rt := by simpa using hreq
        subst hre
        rw [gvat_bootstrap_non200 cfg http now db rt hget hcfg hne hcode]
        exact ⟨rfl, rfl⟩
  | some r =>
    by_cases hfresh : r.expires_at > now + 300
    · rw [gvat_cached cfg http now db r hget hfresh] at hreq
      simp at hreq
    · have hreqs := gvat_requests_refresh cfg http now db r hget hfresh
      rw [hreqs] at hreq
      have hre : req = refreshRequest cfg r.refresh_token := by simpa using hreq
      subst hre
      rw [gvat_refresh_non200 cfg http now db r hget hfresh hcode]
      exact ⟨rfl, rfl⟩

/-- Witness for C5: a stale record and a 401 oracle. -/
theorem upstream_failure_store_unchanged_witness :
    (get_valid_access_token cfgW httpErr 1000 [recStale]).db = [recStale] ∧
    (get_valid_access_token cfgW httpErr 1000 [recStale]).result =
      .error (.exception ("Failed to refresh token: " ++ "invalid_grant")) :=
  upstream_failure_store_unchanged cfgW httpErr 1000 [recStale]
    (refreshRequest cfgW recStale.refresh_token) (by decide) (by decide)

/-- C6: saving tokens and immediately loading returns exactly the record
that was persisted, in all three fields (with `expires_at = now +
expires_in`, the value `save_tokens` computes and stores). -/
theorem save_load_roundtrip (db : List TokenRecord)
    (access_token refresh_token : String) (expires_in now : Int) :
    get_tokens (save_tokens db access_token refresh_token expires_in now) =
      some { access_token := access_token, refresh_token := refresh_token
             expires_at := now + expires_in } := rfl

/-- C7: every save deletes all prior rows and leaves exactly the one new
record, whatever the store held before (any number of prior records); and
`get_valid_access_token` preserves the at-most-one-record invariant. -/
theorem save_single_slot_invariant (cfg : Config)
    (http : OAuthRequest → HttpResponse) (db : List TokenRecord)
    (access_token refresh_token : String) (expires_in now : Int) :
    save_tokens db access_token refresh_token expires_in now =
      [{ access_token := access_token, refresh_token := refresh_token
         expires_at := now + expires_in }] ∧
    (save_tokens db access_token refresh_token expires_in now).length = 1 ∧
    (db.length ≤ 1 →
      ((get_valid_access_token cfg http now db).db).length ≤ 1) := by
  refine ⟨rfl, rfl, fun hdb => ?_⟩
  cases hget : get_tokens db with
  | none =>
    cases hcfg : cfg.bluebeam_refresh_token with
    | none => rw [gvat_no_bootstrap cfg http now db hget hcfg]; exact hdb
    | some rt =>
      cases hne : rt.isEmpty with
      | true => rw [gvat_empty_bootstrap cfg http now db rt hget hcfg hne]; exact hdb
      | false =>
        by_cases h200 : (http (refreshRequest cfg rt)).status_code = 200
        · rw [gvat_bootstrap_200 cfg http now db rt hget hcfg hne h200]; simp
        · rw [gvat_bootstrap_non200 cfg http now db rt hget hcfg hne h200]; exact hdb
  | some r =>
    by_cases hfresh : r.expires_at > now + 300
    · rw [gvat_cached cfg http now db r hget hfresh]; exact hdb
    · by_cases h200 : (http (refreshRequest cfg r.refresh_token)).status_code = 200
      · rw [gvat_refresh_200 cfg http now db r hget hfresh h200]; simp
      · rw [gvat_refresh_non200 cfg http now db r hget hfresh h200]; exact hdb

/-- Witness for C7: the save conjuncts at a concrete two-record store, the
preservation conjunct at a concrete one-record store. -/
theorem save_single_slot_invariant_witness :
    save_tokens [recStale, recFresh] "a1" "r1" 10 5 =
      [{ access_token := "a1", refresh_token := "r1", expires_at := 5 + 10 }] ∧
    (save_tokens [recStale, recFresh] "a1" "r1" 10 5).length = 1 ∧
    ((get_valid_access_token cfgW httpOk 5 [recStale]).db).length ≤ 1 :=
  ⟨(save_single_slot_invariant cfgW httpOk [recStale, recFresh]
      "a1" "r1" 10 5).1,
   (save_single_slot_invariant cfgW httpOk [recStale, recFresh]
      "a1" "r1" 10 5).2.1,
   (save_single_slot_invariant cfgW httpOk [recStale]
      "a1" "r1" 10 5).2.2 (by decide)⟩

/-- Configuration with every environment variable unset. -/
def cfgNoCreds : Config :=
  { client_id := none, client_secret := none, bluebeam_refresh_token := none }

/-- Counterexample for C8: with both client credentials missing the call
does not fail early — it performs a network exchange (one request) and
returns the upstream token successfully. -/
theorem missing_credentials_no_config_error_cex :
    ((get_valid_access_token cfgNoCreds httpOk 1000 [recStale]).requests).length
      = 1 ∧
    (get_valid_access_token cfgNoCreds httpOk 1000 [recStale]).result
      = .ok "at1" :=
  ⟨rfl, rfl⟩

/-- C8 (amended): a missing client_id or client_secret is not detected:
the refresh exchange is still attempted (one request, no error raised
before it), and each missing credential is rendered as the literal string
"None" inside the Basic-auth header, whichever combination is missing. -/
theorem missing_credentials_still_calls_network (cfg : Config)
    (http : OAuthRequest → HttpResponse) (now : Int) (db : List TokenRecord)
    (r : TokenRecord)
    (hmiss : cfg.client_id = none ∨ cfg.client_secret = none)
    (hr : get_tokens db = some r) (hexp : r.expires_at ≤ now + 300) :
    (get_valid_access_token cfg http now db).requests
        = [refreshRequest cfg r.refresh_token] ∧
    (cfg.client_id = none → cfg.client_secret = none →
      (refreshRequest cfg r.refresh_token).authorization
        = "Basic " ++ b64encode "None:None") ∧
    (∀ s, cfg.client_id = none → cfg.client_secret = some s →
      (refreshRequest cfg r.refresh_token).authorization
        = "Basic " ++ b64encode ("None" ++ ":" ++ s)) ∧
    (∀ s, cfg.client_id = some s → cfg.client_secret = none →
      (refreshRequest cfg r.refresh_token).authorization
        = "Basic " ++ b64encode (s ++ ":" ++ "None")) := by
  have _ := hmiss
  refine ⟨gvat_requests_refresh cfg http now db r hr (not_lt.mpr hexp),
    ?_, ?_, ?_⟩
  · intro hid hsec
    have hcred : pyStr cfg.client_id ++ ":" ++ pyStr cfg.client_secret
        = "None:None" := by rw [hid, hsec]; decide
    simp [refreshRequest, hcred]
  · intro s hid hsec
    have hcred : pyStr cfg.client_id ++ ":" ++ pyStr cfg.client_secret
        = "None" ++ ":" ++ s := by rw [hid, hsec]; rfl
    simp [refreshRequest, hcred]
  · intro s hid hsec
    have hcred : pyStr cfg.client_id ++ ":" ++ pyStr cfg.client_secret
        = s ++ ":" ++ "None" := by rw [hid, hsec]; rfl
    simp [refreshRequest, hcred]

/-- Configuration with only the client_id unset. -/
def cfgIdMissing : Config :=
  { client_id := none, client_secret := some "sec"
    bluebeam_refresh_token := none }

/-- Witness for amended C8: both-missing and id-only-missing
configurations, each with the "None" rendering in the header. -/
theorem missing_credentials_still_calls_network_witness :
    (get_valid_access_token cfgNoCreds httpOk 1000 [recStale]).requests
        = [refreshRequest cfgNoCreds recStale.refresh_token] ∧
    (refreshRequest cfgNoCreds recStale.refresh_token).authorization
        = "Basic " ++ b64encode "None:None" ∧
    (get_valid_access_token cfgIdMissing httpOk 1000 [recStale]).requests
        = [refreshRequest cfgIdMissing recStale.refresh_token] ∧
    (refreshRequest cfgIdMissing recStale.refresh_token).authorization
        = "Basic " ++ b64encode ("None" ++ ":" ++ "sec") :=
  ⟨(missing_credentials_still_calls_network cfgNoCreds httpOk 1000 [recStale]
      recStale (Or.inl rfl) rfl (by decide)).1,
   (missing_credentials_still_calls_network cfgNoCreds httpOk 1000 [recStale]
      recStale (Or.inl rfl) rfl (by decide)).2.1 rfl rfl,
   (missing_credentials_still_calls_network cfgIdMissing httpOk 1000 [recStale]
      recStale (Or.inl rfl) rfl (by decide)).1,
   (missing_credentials_still_calls_network cfgIdMissing httpOk 1000 [recStale]
      recStale (Or.inl rfl) rfl (by decide)).2.2.1 "sec" rfl rfl⟩

/-- C9: `_init_db` (CREATE TABLE IF NOT EXISTS) leaves an existing table,
rows included, untouched, and is idempotent — safe on every startup. -/
theorem init_db_idempotent :
    (∀ rows : List TokenRecord, init_db (some rows) = some rows) ∧
    (∀ s : Option (List TokenRecord), init_db (init_db s) = init_db s) :=
  ⟨fun _ => rfl, fun s => by cases s <;> rfl⟩

/-- C10: after every successful call, the returned access token equals the
`access_token` field of the record then held in the store. -/
theorem returned_token_matches_store (cfg : Config)
    (http : OAuthRequest → HttpResponse) (now : Int) (db : List TokenRecord)
    (tok : String)
    (h : (get_valid_access_token cfg http now db).result = .ok tok) :
    ∃ rec, get_tokens (get_valid_access_token cfg http now db).db = some rec ∧
      rec.access_token = tok := by
  cases hget : get_tokens db with
  | none =>
    cases hcfg : cfg.bluebeam_refresh_token with
    | none =>
      rw [gvat_no_bootstrap cfg http now db hget hcfg] at h
      simp at h
    | some rt =>
      cases hne : rt.isEmpty with
      | true =>
        rw [gvat_empty_bootstrap cfg http now db rt hget hcfg hne] at h
        simp at h
      | false =>
        by_cases h200 : (http (refreshRequest cfg rt)).status_code = 200
        · rw [gvat_bootstrap_200 cfg http now db rt hget hcfg hne h200] at h ⊢
          exact ⟨_, rfl, by simpa using h⟩
        · rw [gvat_bootstrap_non200 cfg http now db rt hget hcfg hne h200] at h
          simp at h
  | some r =>
    by_cases hfresh : r.expires_at > now + 300
    · rw [gvat_cached cfg http now db r hget hfresh] at h ⊢
      exact ⟨r, hget, by simpa using h⟩
    · by_cases h200 : (http (refreshRequest cfg r.refresh_token)).status_code = 200
      · rw [gvat_refresh_200 cfg http now db r hget hfresh h200] at h ⊢
        exact ⟨_, rfl, by simpa using h⟩
      · rw [gvat_refresh_non200 cfg http now db r hget hfresh h200] at h
        simp at h

/-- Witness for C10 on the cached path. -/
theorem returned_token_matches_store_witness :
    ∃ rec,
      get_tokens (get_valid_access_token cfgW httpOk 1000 [recFresh]).db
        = some rec ∧
      rec.access_token = "atC" :=
  returned_token_matches_store cfgW httpOk 1000 [recFresh] "atC" rfl

end TokenManager
